import Mathlib

/-!
Shallow embedding of the presutaoru crate (a Linux PSI file-descriptor
monitor library) and proofs about its event-dispatch engines.

Embedded modules, following the Rust sources:
  * `entry.rs`   : the `PsiEntry` path enumeration;
  * `fd.rs`      : `PsiFd`, `PsiFdBuilder` and its validation pipeline;
  * `monitor.rs` : `PsiMonitor` (the identifier-keyed handle registry) and `Event`;
  * `thread.rs`  : `PsiThread`, the epoll-driven background-thread engine;
  * `tokio.rs`   : `PsiTokioReactor`, the per-fd cooperative-task engine.

OS behaviour (epoll, eventfd, file opening) is modelled by explicit
environment records; channel blocking is modelled by an explicit
`blocked` outcome of the receive operation.
-/

set_option autoImplicit false

namespace Presutaoru

/-- Model of the `std::io::ErrorKind` values this crate constructs. -/
inductive ErrorKind where
  | notConnected
  | brokenPipe
  | notFound
  | osError
deriving DecidableEq, Repr

/-- Model of the OS errno values matched in `thread.rs` (plus `EINVAL`,
which `epoll_wait(2)` reports for a non-positive `maxevents`). -/
inductive Errno where
  | EINTR
  | EAGAIN
  | EBADF
  | EINVAL
  | otherNo (n : Nat)
deriving DecidableEq, Repr

/-- Model of `std::io::Error`: a kind, an optional underlying errno, and a
message (the crate builds its errors with `io::Error::new(kind, msg)` or by
converting an `Errno`). -/
structure IoErr where
  kind : ErrorKind
  errno : Option Errno := none
  msg : String := ""
deriving DecidableEq, Repr

/-- Conversion `e.into()` from a `nix::Errno` to an `io::Error`. -/
def errnoToIo (e : Errno) : IoErr :=
  { kind := .osError, errno := some e }

/-- From `monitor.rs`: `Event<T>` — `Ready(T)` or `Failure(io::Error)`. -/
inductive Event (T : Type) where
  | Ready : T → Event T
  | Failure : IoErr → Event T
deriving DecidableEq, Repr

/-- Whether an event is a `Ready` value. -/
def Event.isReady {T : Type} : Event T → Bool
  | .Ready _ => true
  | .Failure _ => false

/-- From `entry.rs`: the four `/proc/pressure` entries. -/
inductive PsiEntry where
  | Cpu
  | Io
  | Irq
  | Memory
deriving DecidableEq, Repr

/-- From `fd.rs`: `StallType` — the `some`/`full` threshold selector. -/
inductive StallType where
  | Some
  | Full
deriving DecidableEq, Repr

/-- From `fd.rs`: `PsiFd` wraps an owned fd together with the `from_builder`
provenance flag (`true` exactly when produced by `PsiFdBuilder::build`;
`new_unchecked` leaves it `false`). The fd is modelled by its number. -/
structure PsiFd where
  fd : Nat
  from_builder : Bool
deriving DecidableEq, Repr

/-- From `fd.rs`: `PsiFd::new_unchecked` — wraps an arbitrary owned fd without
setting the provenance flag. -/
def PsiFd.new_unchecked (fd : Nat) : PsiFd :=
  { fd := fd, from_builder := false }

/-- From `fd.rs`: `PsiFdBuilder` — four optional fields, all `None` by default.
Durations are modelled in nanoseconds (Rust `Duration` compares by its
full nanosecond value). -/
structure PsiFdBuilder where
  entry : Option PsiEntry := none
  stall_type : Option StallType := none
  stall_amount : Option Nat := none
  time_window : Option Nat := none
deriving DecidableEq, Repr

/-- The value of `Duration::from_millis(500)` in nanoseconds. -/
def ns500ms : Nat := 500000000

/-- From `fd.rs`: `PsiFdBuilderError`. -/
inductive PsiFdBuilderError where
  | NoEntry
  | NoStallType
  | NoStallAmount
  | NoTimeWindow
  | TimeWindowTooSmall
  | StallAmountTooLarge
  | NoPsiEntry (e : PsiEntry)
  | IoError (e : IoErr)
deriving DecidableEq, Repr

/-- Whether a builder error is one of the pure validation errors (everything
except the `Io` wrapper around a filesystem error). -/
def PsiFdBuilderError.isValidation : PsiFdBuilderError → Bool
  | .IoError _ => false
  | _ => true

/-- Filesystem environment for `PsiFdBuilder::build`: whether each
`/proc/pressure` entry exists, and the outcomes of the `open` and
`write_all` calls (`open` yields an fd number on success). -/
structure FsEnv where
  entryExists : PsiEntry → Bool
  openResult : Except IoErr Nat
  writeResult : Option IoErr

/-- Result of running `PsiFdBuilder::build` against a filesystem
environment, instrumented with whether `OpenOptions::open` was reached
(no descriptor can exist unless it was). -/
structure BuildTrace where
  result : Except PsiFdBuilderError PsiFd
  openAttempted : Bool
deriving Repr

/-- From `fd.rs` lines 122-154: `PsiFdBuilder::build`. The four missing-field
checks, the 500 ms window floor, the stall/window comparison and the
entry-existence check all run, in that order, before the file is opened;
only then is the file opened and the threshold command written. -/
def PsiFdBuilder.build (b : PsiFdBuilder) (env : FsEnv) : BuildTrace :=
  match b.entry with
  | none => ⟨.error .NoEntry, false⟩
  | some entry =>
  match b.stall_type with
  | none => ⟨.error .NoStallType, false⟩
  | some _stall_type =>
  match b.stall_amount with
  | none => ⟨.error .NoStallAmount, false⟩
  | some stall_amount =>
  match b.time_window with
  | none => ⟨.error .NoTimeWindow, false⟩
  | some time_window =>
  if time_window < ns500ms then ⟨.error .TimeWindowTooSmall, false⟩
  else if stall_amount ≥ time_window then ⟨.error .StallAmountTooLarge, false⟩
  else if ¬ env.entryExists entry then ⟨.error (.NoPsiEntry entry), false⟩
  else
    match env.openResult with
    | .error e => ⟨.error (.IoError e), true⟩
    | .ok fdNum =>
      match env.writeResult with
      | some e => ⟨.error (.IoError e), true⟩
      | none => ⟨.ok { fd := fdNum, from_builder := true }, true⟩

/-- From `monitor.rs`: the registry is an `FxHashMap<T, PsiFd>`; modelled as an
association list with unique keys. -/
def Registry (T : Type) := List (T × PsiFd)

/-- Behaviour of `HashMap::insert` on the association-list model: replace the value in
place when the key is present, append otherwise. -/
def insertAssoc {T : Type} [DecidableEq T] : List (T × PsiFd) → T → PsiFd → List (T × PsiFd)
  | [], k, v => [(k, v)]
  | (k', v') :: rest, k, v =>
    if k' = k then (k, v) :: rest else (k', v') :: insertAssoc rest k v

/-- The panic message of `PsiMonitor::add_fd` (`monitor.rs` line 25). -/
def panicMsgInvalidFd : String :=
  "PsiFd added to PsiMonitor must be created using PsiFdBuilder"

/-- From `monitor.rs` lines 29-34: `PsiMonitor::add_fd` — panics (modelled as
`Except.error` carrying the panic message) when the fd was not produced by
the builder; otherwise inserts, silently replacing any existing mapping. -/
def PsiMonitor.add_fd {T : Type} [DecidableEq T]
    (map : List (T × PsiFd)) (id : T) (fd : PsiFd) :
    Except String (List (T × PsiFd)) :=
  if ¬ fd.from_builder then .error panicMsgInvalidFd
  else .ok (insertAssoc map id fd)

/-! ### thread.rs: the epoll-driven background-thread engine -/

/-- The value `u64::MAX`, the sentinel epoll data value registered for the internal
wake eventfd (`thread.rs` line 52). -/
def u64Max : Nat := 2 ^ 64 - 1

/-- Status of the background thread of a `PsiThread`. -/
inductive ThreadStatus where
  | notStarted
  | running
  | exited
deriving DecidableEq, Repr

/-- State of a `PsiThread<T>` value. `selfAlive` records that the
`PsiThread` value itself has not been dropped; `queue` is the content of
the `mpsc` channel; `ids` is the slot-indexed id table built by `new`;
`epollSlots` records the epoll data values registered by `new`;
`spawnCount` counts the background threads spawned by `start` (ghost
instrumentation). The single `Sender` lives inside `PsiThreadInner`,
which is kept alive by the `Arc` stored in the `PsiThread` value and by
the `Arc` clone captured by a running background thread. -/
structure PsiThreadState (T : Type) where
  selfAlive : Bool
  thread : ThreadStatus
  queue : List (Event T)
  ids : List T
  epollSlots : List Nat
  spawnCount : Nat
deriving DecidableEq, Repr

/-- Whether the channel `Sender` is still alive: it is owned by
`PsiThreadInner`, whose `Arc` strong count is (1 if the `PsiThread` value
is alive) + (1 if the background thread is running). -/
def PsiThreadState.senderAlive {T : Type} (s : PsiThreadState T) : Bool :=
  s.selfAlive || s.thread == .running

/-- OS environment for engine construction: outcomes of `Epoll::new`,
of `epfd.add` on a given fd number, of `EventFd::from_flags`, and of
registering the eventfd. -/
structure OsEnv where
  epollCreateOk : Bool
  fdAddErr : Nat → Option Errno
  eventfdCreateOk : Bool
  wakeAddErr : Option Errno

/-- The all-successful OS environment. -/
def osOk : OsEnv :=
  { epollCreateOk := true, fdAddErr := fun _ => none,
    eventfdCreateOk := true, wakeAddErr := none }

/-- The `epfd.add` registration pass of `PsiThread::new`: each fd of the
map is registered in iteration order; the first failure aborts. No field
of the `PsiFd` other than the raw fd is consulted (in particular not
`from_builder`). -/
def addAllFds {T : Type} (env : OsEnv) : List (T × PsiFd) → Option Errno
  | [] => none
  | (_, fd) :: rest =>
    match env.fdAddErr fd.fd with
    | some e => some e
    | none => addAllFds env rest

/-- From `thread.rs` lines 40-64: `PsiThread::new` — create the epoll instance,
register every fd of the map under slot `i` (building the slot→id table in
the same order), create the nonblocking eventfd and register it under the
sentinel slot `u64::MAX`. Any OS failure aborts the build. -/
def PsiThread.new {T : Type} (env : OsEnv) (map : List (T × PsiFd)) :
    Except IoErr (PsiThreadState T) :=
  if ¬ env.epollCreateOk then .error (errnoToIo (.otherNo 0))
  else
    match addAllFds env map with
    | some e => .error (errnoToIo e)
    | none =>
      if ¬ env.eventfdCreateOk then .error (errnoToIo (.otherNo 0))
      else
        match env.wakeAddErr with
        | some e => .error (errnoToIo e)
        | none =>
          .ok { selfAlive := true
                thread := .notStarted
                queue := []
                ids := map.map Prod.fst
                epollSlots := (List.range map.length) ++ [u64Max]
                spawnCount := 0 }

/-- From `thread.rs` lines 67-77: `PsiThread::start` — unconditionally spawn a
background thread running `epoll_loop` and store its join handle; there
is no already-started guard, so each call spawns one more thread. -/
def PsiThread.start {T : Type} (s : PsiThreadState T) :
    Except IoErr (PsiThreadState T) :=
  .ok { s with thread := .running, spawnCount := s.spawnCount + 1 }

/-- The error returned by `recv` before `start` (`thread.rs` lines 82-85). -/
def notStartedThreadErr : IoErr :=
  { kind := .notConnected, msg := "the epoll thread is not started" }

/-- The error `recv` maps a `RecvError` to (`thread.rs` lines 87-92). -/
def channelClosedErr : IoErr :=
  { kind := .brokenPipe, msg := "called a recv on a closed channel" }

/-- Outcome of a blocking receive: an event, an immediate error, or
blocking forever. -/
inductive RecvOutcome (T : Type) where
  | event : Event T → RecvOutcome T
  | err : IoErr → RecvOutcome T
  | blocked : RecvOutcome T
deriving DecidableEq, Repr

/-- From `thread.rs` lines 80-93: `PsiThread::recv` — fails with the
not-started error when `start` was never called; otherwise performs a
blocking `mpsc` receive: yields the head of the queue, fails with the
closed-channel error when the queue is empty and no `Sender` is alive,
and blocks when the queue is empty but a `Sender` is still alive. -/
def PsiThread.recv {T : Type} (s : PsiThreadState T) : RecvOutcome T :=
  if s.thread == .notStarted then .err notStartedThreadErr
  else
    match s.queue with
    | e :: _ => .event e
    | [] => if s.senderAlive then .blocked else .err channelClosedErr

/-- The `io::Error` the loop's `send` closure produces when the receiver
has been dropped (`thread.rs` lines 124-128). -/
def sendBrokenPipeErr : IoErr :=
  { kind := .brokenPipe, msg := "SendError" }

/-- Outcome of one iteration of the `epoll_loop` body: continue looping,
return `Ok(())`, return an error, or hit the index panic on an
unregistered slot value. Each carries the events sent on the channel
during the iteration, in send order. -/
inductive StepResult (T : Type) where
  | next : List (Event T) → StepResult T
  | exitOk : List (Event T) → StepResult T
  | exitErr : List (Event T) → IoErr → StepResult T
  | panicked : List (Event T) → StepResult T
deriving DecidableEq, Repr

/-- From `thread.rs` lines 134-141: the `Ok(num)` arm — walk the fired events
in the multiplexer-reported order; the sentinel value returns `Ok(())`
immediately; any other value indexes the id table and sends `Ready(id)`,
a failed send (receiver dropped, `rxAlive = false`) aborting with the
broken-pipe error. -/
def processFired {T : Type} (ids : List T) (rxAlive : Bool) :
    List Nat → StepResult T
  | [] => .next []
  | d :: rest =>
    if d = u64Max then .exitOk []
    else
      match ids[d]? with
      | none => .panicked []
      | some id =>
        if rxAlive then
          match processFired ids rxAlive rest with
          | .next s => .next (Event.Ready id :: s)
          | .exitOk s => .exitOk (Event.Ready id :: s)
          | .exitErr s e => .exitErr (Event.Ready id :: s) e
          | .panicked s => .panicked (Event.Ready id :: s)
        else .exitErr [] sendBrokenPipeErr

/-- From `thread.rs` lines 132-156: one full iteration of `epoll_loop` given
the result of the `epfd.wait` call: `Ok` dispatches the fired slots;
`EINTR`/`EAGAIN` retries; `EBADF` exits cleanly; any other errno sends
`Event::Failure` (itself fallible when the receiver is gone) and exits
with the error. -/
def epollLoopStep {T : Type} (ids : List T) (rxAlive : Bool)
    (wait : Except Errno (List Nat)) : StepResult T :=
  match wait with
  | .ok fired => processFired ids rxAlive fired
  | .error .EINTR => .next []
  | .error .EAGAIN => .next []
  | .error .EBADF => .exitOk []
  | .error e =>
    if rxAlive then .exitErr [Event.Failure (errnoToIo e)] (errnoToIo e)
    else .exitErr [] sendBrokenPipeErr

/-- Modelled from `epoll_wait(2)`: called with a `maxevents` of `bufLen`
(the loop passes a buffer of exactly `ids.len()` entries, `thread.rs`
line 129), it fails with `EINVAL` when `maxevents` is not positive and
otherwise reports at most `bufLen` of the pending fired slots. -/
def epollWait (bufLen : Nat) (pending : List Nat) : Except Errno (List Nat) :=
  if bufLen = 0 then .error .EINVAL
  else .ok (pending.take bufLen)

/-- The first iteration of `epoll_loop` after `start`: the event buffer is
allocated with `self.ids.len()` entries (`thread.rs` line 129) and handed
to `epfd.wait`. -/
def epollLoopFirstStep {T : Type} (ids : List T) (rxAlive : Bool)
    (pending : List Nat) : StepResult T :=
  epollLoopStep ids rxAlive (epollWait ids.length pending)

/-! ### tokio.rs: the per-fd cooperative-task engine -/

/-- The error returned by the tokio `recv` before `start`
(`tokio.rs` lines 54-57). -/
def notStartedTokioErr : IoErr :=
  { kind := .notConnected, msg := "the tokio tasks is not started" }

/-- State of a `PsiTokioReactor<T>` value. `innerSlots` records, per
registered fd, whether the `Option<PsiTokioReactorInner>` slot still
holds its inner value (`start` takes them out); `started` is
`abort_handles.is_some()`; `queue` is the content of the unbounded
channel; `liveSenders` counts the live `UnboundedSender` clones (one per
inner value still alive, whether stored in a slot or owned by a spawned
task — the original sender is dropped at the end of `new`);
`tasksSpawned` counts the tasks spawned so far (ghost instrumentation). -/
structure PsiTokioState (T : Type) where
  innerSlots : List Bool
  started : Bool
  queue : List (Event T)
  liveSenders : Nat
  tasksSpawned : Nat
deriving DecidableEq, Repr

/-- Environment for `AsyncFd::with_interest` during `PsiTokioReactor::new`:
the outcome per wrapped fd number. -/
structure TokioEnv where
  asyncFdErr : Nat → Option IoErr

/-- The all-successful tokio environment. -/
def tokioOk : TokioEnv :=
  { asyncFdErr := fun _ => none }

/-- The `AsyncFd` wrapping pass of `PsiTokioReactor::new`: each fd of the
map is wrapped in iteration order; the first failure aborts. No field of
the `PsiFd` other than the raw fd is consulted (in particular not
`from_builder`). -/
def wrapAllFds {T : Type} (env : TokioEnv) : List (T × PsiFd) → Option IoErr
  | [] => none
  | (_, fd) :: rest =>
    match env.asyncFdErr fd.fd with
    | some e => some e
    | none => wrapAllFds env rest

/-- From `tokio.rs` lines 28-39: `PsiTokioReactor::new` — create the unbounded
channel, wrap every fd in an `AsyncFd` with `Interest::PRIORITY` (each
inner holding a clone of the sender; the original sender is dropped when
`new` returns), and store the inners in `Some`-filled slots with no abort
handles yet. -/
def PsiTokioReactor.new {T : Type} (env : TokioEnv) (map : List (T × PsiFd)) :
    Except IoErr (PsiTokioState T) :=
  match wrapAllFds env map with
  | some e => .error e
  | none =>
    .ok { innerSlots := map.map (fun _ => true)
          started := false
          queue := []
          liveSenders := map.length
          tasksSpawned := 0 }

/-- From `tokio.rs` lines 42-49: `PsiTokioReactor::start` — for every slot,
`take()` the inner and spawn its `run` task, collecting the abort handles
through `Option`: the collect yields `Some` exactly when every slot still
held its inner. A second call therefore spawns nothing and, for a
non-empty reactor, stores `None` as the abort handles. Always returns
`Ok(())`. -/
def PsiTokioReactor.start {T : Type} (s : PsiTokioState T) :
    Except IoErr (PsiTokioState T) :=
  .ok { s with
        innerSlots := s.innerSlots.map (fun _ => false)
        started := s.innerSlots.all (fun b => b)
        tasksSpawned := s.tasksSpawned + s.innerSlots.count true }

/-- From `tokio.rs` lines 52-63: `PsiTokioReactor::recv` — fails with the
not-started error when the abort handles are absent; otherwise awaits the
unbounded channel: yields the head of the queue, fails with the
closed-channel error when the queue is empty and every sender is gone,
and suspends (blocks) when the queue is empty but a sender is alive. -/
def PsiTokioReactor.recv {T : Type} (s : PsiTokioState T) : RecvOutcome T :=
  if ¬ s.started then .err notStartedTokioErr
  else
    match s.queue with
    | e :: _ => .event e
    | [] => if s.liveSenders == 0 then .err channelClosedErr else .blocked

/-- From `tokio.rs` lines 95-111: the body of `PsiTokioReactorInner::run`,
applied to a finite observation window of readiness outcomes (`none` for
a successful `readable().await`, `some e` for a failed one). Returns the
events sent in order and whether the task broke out of its loop (which
happens only when a send fails because the receiver was dropped). On a
readiness failure the task sends `Event::Failure` and keeps looping. -/
def taskRun {T : Type} (id : T) (rxAlive : Bool) :
    List (Option IoErr) → List (Event T) × Bool
  | [] => ([], false)
  | res :: rest =>
    match res with
    | none =>
      if rxAlive then
        let (s, b) := taskRun id rxAlive rest
        (Event.Ready id :: s, b)
      else ([], true)
    | some e =>
      if rxAlive then
        let (s, b) := taskRun id rxAlive rest
        (Event.Failure e :: s, b)
      else ([], true)

/-- The whole reactor's production: one independent task per registered
id, each driven only by its own readiness trace. -/
def reactorRun {T : Type} (rxAlive : Bool)
    (tasks : List (T × List (Option IoErr))) : List (List (Event T)) :=
  tasks.map (fun t => (taskRun t.fst rxAlive t.snd).fst)

/-! ### Auxiliary definitions used by the statements -/

/-- Lookup in the association-list model of the registry. -/
def lookupAssoc {T : Type} [DecidableEq T] : List (T × PsiFd) → T → Option PsiFd
  | [], _ => none
  | (k', v') :: rest, k => if k' = k then some v' else lookupAssoc rest k

/-- Whether a build result is a pure validation failure (any error except
the `Io` wrapper around a filesystem error). -/
def isValidationFailure : Except PsiFdBuilderError PsiFd → Bool
  | .error e => e.isValidation
  | .ok _ => false

/-- The `Ready` events produced for a list of fired slot values, in
order, looking each slot up in the id table. -/
def readies {T : Type} (ids : List T) (ds : List Nat) : List (Event T) :=
  ds.filterMap (fun d => ids[d]?.map Event.Ready)

/-! ### Helper lemmas -/

theorem thread_new_ok_state {T : Type} {env : OsEnv} {map : List (T × PsiFd)}
    {s : PsiThreadState T} (h : PsiThread.new env map = .ok s) :
    s = { selfAlive := true, thread := .notStarted, queue := [],
          ids := map.map Prod.fst,
          epollSlots := (List.range map.length) ++ [u64Max], spawnCount := 0 } := by
  unfold PsiThread.new at h
  repeat' split at h
  all_goals first
    | (injection h with h; exact h.symm)
    | simp at h

theorem tokio_new_ok_state {T : Type} {env : TokioEnv} {map : List (T × PsiFd)}
    {s : PsiTokioState T} (h : PsiTokioReactor.new env map = .ok s) :
    s = { innerSlots := map.map (fun _ => true), started := false,
          queue := [], liveSenders := map.length, tasksSpawned := 0 } := by
  unfold PsiTokioReactor.new at h
  repeat' split at h
  all_goals first
    | (injection h with h; exact h.symm)
    | simp at h

theorem lookupAssoc_insertAssoc_self {T : Type} [DecidableEq T]
    (l : List (T × PsiFd)) (k : T) (v : PsiFd) :
    lookupAssoc (insertAssoc l k v) k = some v := by
  induction l with
  | nil => simp [insertAssoc, lookupAssoc]
  | cons p rest ih =>
    by_cases hk : p.1 = k
    · simp [insertAssoc, hk, lookupAssoc]
    · simp [insertAssoc, hk, lookupAssoc, ih]

theorem lookupAssoc_insertAssoc_ne {T : Type} [DecidableEq T]
    (l : List (T × PsiFd)) (k k2 : T) (v : PsiFd) (h : k2 ≠ k) :
    lookupAssoc (insertAssoc l k v) k2 = lookupAssoc l k2 := by
  induction l with
  | nil => simp [insertAssoc, lookupAssoc, Ne.symm h]
  | cons p rest ih =>
    by_cases hk : p.1 = k
    · simp [insertAssoc, hk, lookupAssoc, Ne.symm h]
    · simp [insertAssoc, hk, lookupAssoc, ih]

theorem keys_insertAssoc_of_mem {T : Type} [DecidableEq T]
    (l : List (T × PsiFd)) (k : T) (v : PsiFd) (h : k ∈ l.map Prod.fst) :
    (insertAssoc l k v).map Prod.fst = l.map Prod.fst := by
  induction l with
  | nil => simp at h
  | cons p rest ih =>
    by_cases hk : p.1 = k
    · simp [insertAssoc, hk]
    · have hmem : k ∈ rest.map Prod.fst := by
        simp at h
        rcases h with h | h
        · exact absurd h.symm hk
        · simpa using h
      simp [insertAssoc, hk, ih hmem]

theorem mem_keys_of_lookupAssoc {T : Type} [DecidableEq T]
    (l : List (T × PsiFd)) (k : T) (v : PsiFd) (h : lookupAssoc l k = some v) :
    k ∈ l.map Prod.fst := by
  induction l with
  | nil => simp [lookupAssoc] at h
  | cons p rest ih =>
    by_cases hk : p.1 = k
    · simp [hk]
    · simp [lookupAssoc, hk] at h
      simp [ih h]

/-! ### Claim theorems -/

/-- C7: the registry's keys are unique after every operation: adding an
Id already present silently replaces the existing mapping (the prior
handle is dropped from the registry), other keys are untouched, and no
error is reported. -/
theorem add_fd_duplicate_silently_replaces {T : Type} [DecidableEq T]
    (map : List (T × PsiFd)) (id : T) (fd old : PsiFd)
    (hnodup : (map.map Prod.fst).Nodup)
    (hfb : fd.from_builder = true)
    (hold : lookupAssoc map id = some old) :
    PsiMonitor.add_fd map id fd = .ok (insertAssoc map id fd) ∧
    (insertAssoc map id fd).map Prod.fst = map.map Prod.fst ∧
    ((insertAssoc map id fd).map Prod.fst).Nodup ∧
    lookupAssoc (insertAssoc map id fd) id = some fd ∧
    (∀ k, k ≠ id → lookupAssoc (insertAssoc map id fd) k = lookupAssoc map k) := by
  have hmem := mem_keys_of_lookupAssoc map id old hold
  have hkeys := keys_insertAssoc_of_mem map id fd hmem
  refine ⟨?_, hkeys, hkeys ▸ hnodup, lookupAssoc_insertAssoc_self map id fd, ?_⟩
  · simp [PsiMonitor.add_fd, hfb]
  · intro k hk
    exact lookupAssoc_insertAssoc_ne map id k fd hk

/-- Witness for C7 at a concrete registry holding key 0. -/
theorem add_fd_duplicate_silently_replaces_witness :
    ((([((0 : Nat), ({ fd := 3, from_builder := true } : PsiFd))]).map Prod.fst).Nodup ∧
      ({ fd := 4, from_builder := true } : PsiFd).from_builder = true ∧
      lookupAssoc [((0 : Nat), ({ fd := 3, from_builder := true } : PsiFd))] 0 =
        some { fd := 3, from_builder := true }) ∧
    (PsiMonitor.add_fd [((0 : Nat), ({ fd := 3, from_builder := true } : PsiFd))] 0
        { fd := 4, from_builder := true } =
      .ok (insertAssoc [((0 : Nat), ({ fd := 3, from_builder := true } : PsiFd))] 0
        { fd := 4, from_builder := true }) ∧
      (insertAssoc [((0 : Nat), ({ fd := 3, from_builder := true } : PsiFd))] 0
        { fd := 4, from_builder := true }).map Prod.fst =
        ([((0 : Nat), ({ fd := 3, from_builder := true } : PsiFd))]).map Prod.fst ∧
      ((insertAssoc [((0 : Nat), ({ fd := 3, from_builder := true } : PsiFd))] 0
        { fd := 4, from_builder := true }).map Prod.fst).Nodup ∧
      lookupAssoc (insertAssoc [((0 : Nat), ({ fd := 3, from_builder := true } : PsiFd))] 0
        { fd := 4, from_builder := true }) 0 = some { fd := 4, from_builder := true } ∧
      (∀ k, k ≠ 0 →
        lookupAssoc (insertAssoc [((0 : Nat), ({ fd := 3, from_builder := true } : PsiFd))] 0
          { fd := 4, from_builder := true }) k =
        lookupAssoc [((0 : Nat), ({ fd := 3, from_builder := true } : PsiFd))] k)) :=
  ⟨⟨by decide, by decide, by decide⟩,
    add_fd_duplicate_silently_replaces
      [((0 : Nat), ({ fd := 3, from_builder := true } : PsiFd))] 0
      { fd := 4, from_builder := true } { fd := 3, from_builder := true }
      (by decide) (by decide) (by decide)⟩

/-- C8: for both engine types, every `recv` made on a freshly built,
never-started engine fails immediately with the not-started error
(rather than blocking or suspending). -/
theorem recv_before_start_not_started {T : Type}
    (envT : OsEnv) (envK : TokioEnv) (map1 map2 : List (T × PsiFd))
    (s1 : PsiThreadState T) (s2 : PsiTokioState T)
    (h1 : PsiThread.new envT map1 = .ok s1)
    (h2 : PsiTokioReactor.new envK map2 = .ok s2) :
    PsiThread.recv s1 = .err notStartedThreadErr ∧
    PsiTokioReactor.recv s2 = .err notStartedTokioErr := by
  have e1 := thread_new_ok_state h1
  have e2 := tokio_new_ok_state h2
  subst e1
  subst e2
  exact ⟨rfl, rfl⟩

/-- Witness for C8 on engines built from the empty registry. -/
theorem recv_before_start_not_started_witness :
    (PsiThread.new osOk ([] : List (Nat × PsiFd)) =
        .ok { selfAlive := true, thread := .notStarted, queue := [], ids := [],
              epollSlots := [u64Max], spawnCount := 0 } ∧
      PsiTokioReactor.new tokioOk ([] : List (Nat × PsiFd)) =
        .ok { innerSlots := [], started := false, queue := [],
              liveSenders := 0, tasksSpawned := 0 }) ∧
    (PsiThread.recv { selfAlive := true, thread := .notStarted, queue := [],
                      ids := ([] : List Nat), epollSlots := [u64Max], spawnCount := 0 } =
      .err notStartedThreadErr ∧
    PsiTokioReactor.recv { innerSlots := [], started := false, queue := [],
                           liveSenders := 0, tasksSpawned := 0 } =
      RecvOutcome.err (T := Nat) notStartedTokioErr) :=
  ⟨⟨rfl, rfl⟩,
    recv_before_start_not_started osOk tokioOk [] [] _ _ rfl rfl⟩

/-- C5: the dispatch loop classifies every `epfd.wait` error into exactly
three outcomes: `EINTR`/`EAGAIN` (transient interruption) is retried with
nothing sent and no slot consumed; `EBADF` (the epoll fd became invalid)
terminates the loop cleanly with nothing sent; any other errno sends
`Event::Failure` carrying that error and exits the loop with it. -/
theorem wait_error_classification {T : Type} (ids : List T) (rxAlive : Bool)
    (e : Errno)
    (h1 : e ≠ .EINTR) (h2 : e ≠ .EAGAIN) (h3 : e ≠ .EBADF) :
    epollLoopStep ids rxAlive (.error .EINTR) = .next [] ∧
    epollLoopStep ids rxAlive (.error .EAGAIN) = .next [] ∧
    epollLoopStep ids rxAlive (.error .EBADF) = .exitOk [] ∧
    epollLoopStep ids true (.error e) =
      .exitErr [Event.Failure (errnoToIo e)] (errnoToIo e) := by
  refine ⟨rfl, rfl, rfl, ?_⟩
  cases e with
  | EINTR => exact absurd rfl h1
  | EAGAIN => exact absurd rfl h2
  | EBADF => exact absurd rfl h3
  | EINVAL => rfl
  | otherNo n => rfl

/-- Witness for C5 at the concrete errno `ENOMEM`-like `otherNo 12`. -/
theorem wait_error_classification_witness :
    ((Errno.otherNo 12 ≠ .EINTR) ∧ (Errno.otherNo 12 ≠ .EAGAIN) ∧
      (Errno.otherNo 12 ≠ .EBADF)) ∧
    (epollLoopStep [(0 : Nat)] false (.error .EINTR) = .next [] ∧
      epollLoopStep [(0 : Nat)] false (.error .EAGAIN) = .next [] ∧
      epollLoopStep [(0 : Nat)] false (.error .EBADF) = .exitOk [] ∧
      epollLoopStep [(0 : Nat)] true (.error (.otherNo 12)) =
        .exitErr [Event.Failure (errnoToIo (.otherNo 12))]
          (errnoToIo (.otherNo 12))) :=
  ⟨⟨by decide, by decide, by decide⟩,
    wait_error_classification [(0 : Nat)] false (.otherNo 12)
      (by decide) (by decide) (by decide)⟩

/-- C9: with all four builder fields set, `build` fails with
`TimeWindowTooSmall` exactly when the window is below 500 ms, otherwise
with `StallAmountTooLarge` exactly when the stall amount is at least the
window; and every validation failure (missing fields included) is decided
before the file is opened, so no descriptor is created on a validation
failure. -/
theorem build_validation (b : PsiFdBuilder) (env : FsEnv)
    (e : PsiEntry) (st : StallType) (sa tw : Nat)
    (h1 : b.entry = some e) (h2 : b.stall_type = some st)
    (h3 : b.stall_amount = some sa) (h4 : b.time_window = some tw) :
    ((b.build env).result = .error .TimeWindowTooSmall ↔ tw < ns500ms) ∧
    (ns500ms ≤ tw →
      ((b.build env).result = .error .StallAmountTooLarge ↔ tw ≤ sa)) ∧
    (∀ (b2 : PsiFdBuilder) (env2 : FsEnv),
      isValidationFailure (b2.build env2).result = true →
      (b2.build env2).openAttempted = false) := by
  have hb : b.build env =
      (if tw < ns500ms then ⟨.error .TimeWindowTooSmall, false⟩
       else if sa ≥ tw then ⟨.error .StallAmountTooLarge, false⟩
       else if ¬ env.entryExists e then ⟨.error (.NoPsiEntry e), false⟩
       else
         match env.openResult with
         | .error er => ⟨.error (.IoError er), true⟩
         | .ok fdNum =>
           match env.writeResult with
           | some er => ⟨.error (.IoError er), true⟩
           | none => ⟨.ok { fd := fdNum, from_builder := true }, true⟩) := by
    unfold PsiFdBuilder.build
    rw [h1, h2, h3, h4]
  have htail :
      ((if ¬ env.entryExists e then
          (⟨.error (.NoPsiEntry e), false⟩ : BuildTrace)
        else
          match env.openResult with
          | .error er => ⟨.error (.IoError er), true⟩
          | .ok fdNum =>
            match env.writeResult with
            | some er => ⟨.error (.IoError er), true⟩
            | none => ⟨.ok { fd := fdNum, from_builder := true }, true⟩).result
          ≠ .error .TimeWindowTooSmall) ∧
      ((if ¬ env.entryExists e then
          (⟨.error (.NoPsiEntry e), false⟩ : BuildTrace)
        else
          match env.openResult with
          | .error er => ⟨.error (.IoError er), true⟩
          | .ok fdNum =>
            match env.writeResult with
            | some er => ⟨.error (.IoError er), true⟩
            | none => ⟨.ok { fd := fdNum, from_builder := true }, true⟩).result
          ≠ .error .StallAmountTooLarge) := by
    by_cases hex : env.entryExists e
    · cases hro : env.openResult with
      | error er => simp [hex, hro]
      | ok fdNum =>
        cases hrw : env.writeResult with
        | some er => simp [hex, hro, hrw]
        | none => simp [hex, hro, hrw]
    · simp [hex]
  refine ⟨?_, ?_, ?_⟩
  · rw [hb]
    by_cases hlt : tw < ns500ms
    · simp [hlt]
    · simp only [if_neg hlt]
      by_cases hge : sa ≥ tw
      · simp only [if_pos hge]
        constructor
        · intro hres
          exact absurd hres (by simp)
        · intro hres
          exact absurd hres hlt
      · simp only [if_neg hge]
        constructor
        · intro hres
          exact absurd hres htail.1
        · intro hres
          exact absurd hres hlt
  · intro hge
    rw [hb]
    have hlt : ¬ tw < ns500ms := by omega
    simp only [if_neg hlt]
    by_cases hsa : sa ≥ tw
    · simp only [if_pos hsa]
      simp [hsa]
    · simp only [if_neg hsa]
      constructor
      · intro hres
        exact absurd hres htail.2
      · intro hres
        exact absurd hres hsa
  · intro b2 env2 hval
    rcases hbe : b2.entry with _ | e2
    · simp [PsiFdBuilder.build, hbe]
    rcases hbs : b2.stall_type with _ | st2
    · simp [PsiFdBuilder.build, hbe, hbs]
    rcases hba : b2.stall_amount with _ | sa2
    · simp [PsiFdBuilder.build, hbe, hbs, hba]
    rcases hbw : b2.time_window with _ | tw2
    · simp [PsiFdBuilder.build, hbe, hbs, hba, hbw]
    by_cases hlt2 : tw2 < ns500ms
    · simp [PsiFdBuilder.build, hbe, hbs, hba, hbw, hlt2]
    by_cases hsa2 : sa2 ≥ tw2
    · simp [PsiFdBuilder.build, hbe, hbs, hba, hbw, hlt2, hsa2]
    by_cases hex2 : env2.entryExists e2
    · exfalso
      cases hro : env2.openResult with
      | error er =>
        simp [PsiFdBuilder.build, hbe, hbs, hba, hbw, hlt2, hsa2, hex2, hro,
          isValidationFailure, PsiFdBuilderError.isValidation] at hval
      | ok fdNum =>
        cases hrw : env2.writeResult with
        | some er =>
          simp [PsiFdBuilder.build, hbe, hbs, hba, hbw, hlt2, hsa2, hex2, hro,
            hrw, isValidationFailure, PsiFdBuilderError.isValidation] at hval
        | none =>
          simp [PsiFdBuilder.build, hbe, hbs, hba, hbw, hlt2, hsa2, hex2, hro,
            hrw, isValidationFailure] at hval
    · simp [PsiFdBuilder.build, hbe, hbs, hba, hbw, hlt2, hsa2, hex2]

/-- Witness for C9 at a fully-populated builder (1 ms stall over a 1 s
window) against a filesystem where the entry exists and IO succeeds. -/
theorem build_validation_witness :
    ((⟨some .Cpu, some .Some, some 1000000, some 1000000000⟩ : PsiFdBuilder).entry
        = some .Cpu ∧
      (⟨some .Cpu, some .Some, some 1000000, some 1000000000⟩ : PsiFdBuilder).stall_type
        = some .Some ∧
      (⟨some .Cpu, some .Some, some 1000000, some 1000000000⟩ : PsiFdBuilder).stall_amount
        = some 1000000 ∧
      (⟨some .Cpu, some .Some, some 1000000, some 1000000000⟩ : PsiFdBuilder).time_window
        = some 1000000000) ∧
    ((PsiFdBuilder.build ⟨some .Cpu, some .Some, some 1000000, some 1000000000⟩
        ⟨fun _ => true, .ok 7, none⟩).result = .error .TimeWindowTooSmall ↔
        1000000000 < ns500ms) ∧
    (ns500ms ≤ 1000000000 →
      ((PsiFdBuilder.build ⟨some .Cpu, some .Some, some 1000000, some 1000000000⟩
        ⟨fun _ => true, .ok 7, none⟩).result = .error .StallAmountTooLarge ↔
        1000000000 ≤ 1000000)) ∧
    (∀ (b2 : PsiFdBuilder) (env2 : FsEnv),
      isValidationFailure (b2.build env2).result = true →
      (b2.build env2).openAttempted = false) :=
  ⟨⟨rfl, rfl, rfl, rfl⟩,
    build_validation ⟨some .Cpu, some .Some, some 1000000, some 1000000000⟩
      ⟨fun _ => true, .ok 7, none⟩
      .Cpu .Some 1000000 1000000000 rfl rfl rfl rfl⟩

theorem processFired_no_sentinel {T : Type} (ids : List T) (fired : List Nat)
    (h : ∀ d ∈ fired, d < ids.length) (hs : u64Max ∉ fired) :
    processFired ids true fired = .next (readies ids fired) := by
  induction fired with
  | nil => rfl
  | cons d rest ih =>
    have hd : d ≠ u64Max := fun hdd => hs (hdd ▸ List.mem_cons_self d rest)
    have hdl : d < ids.length := h d (List.mem_cons_self d rest)
    have hget := List.getElem?_eq_getElem hdl
    have ih2 := ih (fun x hx => h x (List.mem_cons_of_mem d hx))
      (fun hx => hs (List.mem_cons_of_mem d hx))
    simp [processFired, hd, hget, ih2, readies]

theorem processFired_sentinel {T : Type} (ids : List T) (fired : List Nat)
    (h : ∀ d ∈ fired, d = u64Max ∨ d < ids.length) (hs : u64Max ∈ fired) :
    processFired ids true fired =
      .exitOk (readies ids (fired.takeWhile (fun x => x != u64Max))) := by
  induction fired with
  | nil => simp at hs
  | cons d rest ih =>
    by_cases hd : d = u64Max
    · subst hd
      simp [processFired, readies, List.takeWhile_cons]
    · have hdl : d < ids.length := (h d (List.mem_cons_self d rest)).resolve_left hd
      have hget := List.getElem?_eq_getElem hdl
      have hs2 : u64Max ∈ rest := by
        rcases List.mem_cons.mp hs with h1 | h1
        · exact absurd h1.symm hd
        · exact h1
      have ih2 := ih (fun x hx => h x (List.mem_cons_of_mem d hx)) hs2
      simp [processFired, hd, hget, ih2, readies, List.takeWhile_cons]

theorem processFired_send_failure {T : Type} (ids : List T) (d : Nat)
    (rest : List Nat) (hd : d ≠ u64Max) (hdl : d < ids.length) :
    processFired ids false (d :: rest) = .exitErr [] sendBrokenPipeErr := by
  have hget := List.getElem?_eq_getElem hdl
  simp [processFired, hd, hget]

theorem readies_all_ready {T : Type} (ids : List T) (ds : List Nat) :
    ∀ ev ∈ readies ids ds, ev.isReady = true := by
  intro ev hev
  simp only [readies, List.mem_filterMap] at hev
  rcases hev with ⟨d, _, hmap⟩
  cases hg : ids[d]? with
  | none => rw [hg] at hmap; simp at hmap
  | some v =>
    rw [hg] at hmap
    simp only [Option.map_some'] at hmap
    cases hmap
    rfl

/-- C4: on a successful wake of the dispatch loop: if the sentinel wake
slot fired, the loop returns cleanly, sending only the `Ready` events of
the slots reported before the sentinel and no failure event; if no
sentinel fired, a `Ready(Id)` is sent for every fired slot, in
multiplexer-reported order, and the loop continues; and a failed send
(receiver dropped) makes the loop exit with the broken-pipe error. -/
theorem thread_wake_dispatch {T : Type} (ids : List T) (fired : List Nat)
    (d : Nat) (rest : List Nat)
    (h : ∀ x ∈ fired, x = u64Max ∨ x < ids.length)
    (hd : d ≠ u64Max) (hdl : d < ids.length) :
    (u64Max ∈ fired →
      epollLoopStep ids true (.ok fired) =
        .exitOk (readies ids (fired.takeWhile (fun x => x != u64Max))) ∧
      ∀ ev ∈ readies ids (fired.takeWhile (fun x => x != u64Max)),
        ev.isReady = true) ∧
    (u64Max ∉ fired →
      epollLoopStep ids true (.ok fired) = .next (readies ids fired)) ∧
    epollLoopStep ids false (.ok (d :: rest)) = .exitErr [] sendBrokenPipeErr := by
  refine ⟨?_, ?_, processFired_send_failure ids d rest hd hdl⟩
  · intro hs
    exact ⟨processFired_sentinel ids fired h hs, readies_all_ready ids _⟩
  · intro hs
    have h2 : ∀ x ∈ fired, x < ids.length := fun x hx =>
      (h x hx).resolve_left (fun he => hs (he ▸ hx))
    exact processFired_no_sentinel ids fired h2 hs

/-- Witness for C4 on a two-id table with the sentinel firing second. -/
theorem thread_wake_dispatch_witness :
    ((∀ x ∈ [1, u64Max], x = u64Max ∨ x < [(10 : Nat), 20].length) ∧
      (0 : Nat) ≠ u64Max ∧ (0 : Nat) < [(10 : Nat), 20].length) ∧
    ((u64Max ∈ [1, u64Max] →
      epollLoopStep [(10 : Nat), 20] true (.ok [1, u64Max]) =
        .exitOk (readies [(10 : Nat), 20]
          (([1, u64Max] : List Nat).takeWhile (fun x => x != u64Max))) ∧
      ∀ ev ∈ readies [(10 : Nat), 20]
          (([1, u64Max] : List Nat).takeWhile (fun x => x != u64Max)),
        ev.isReady = true) ∧
    (u64Max ∉ [1, u64Max] →
      epollLoopStep [(10 : Nat), 20] true (.ok [1, u64Max]) =
        .next (readies [(10 : Nat), 20] [1, u64Max])) ∧
    epollLoopStep [(10 : Nat), 20] false (.ok [0]) =
      .exitErr [] sendBrokenPipeErr) :=
  ⟨⟨by decide, by decide, by decide⟩,
    thread_wake_dispatch [(10 : Nat), 20] [1, u64Max] 0 []
      (by decide) (by decide) (by decide)⟩

/-- C10: the wait buffer of the dispatch loop has exactly one entry per
registered id — one fewer than the slots registered with the multiplexer
(the wake handle has no buffer entry); for an engine built from the empty
registry the buffer is empty, so the first wait call fails with `EINVAL`
(reported as an `Event::Failure` and a permanent loop exit) instead of
reporting any fired slot, the shutdown sentinel included. -/
theorem empty_registry_wait_buffer {T : Type} (env : OsEnv)
    (map : List (T × PsiFd)) (s : PsiThreadState T) (pending : List Nat)
    (h : PsiThread.new env map = .ok s) :
    s.epollSlots.length = s.ids.length + 1 ∧
    (map = [] →
      s.ids = [] ∧
      epollWait s.ids.length pending = .error .EINVAL ∧
      epollLoopFirstStep s.ids true pending =
        .exitErr [Event.Failure (errnoToIo .EINVAL)] (errnoToIo .EINVAL)) := by
  have e1 := thread_new_ok_state h
  subst e1
  constructor
  · simp
  · intro hm
    subst hm
    exact ⟨rfl, rfl, rfl⟩

/-- Witness for C10 on the engine built from the empty registry, with the
sentinel value among the pending wakes. -/
theorem empty_registry_wait_buffer_witness :
    (PsiThread.new osOk ([] : List (Nat × PsiFd)) =
      .ok ⟨true, .notStarted, [], [], [u64Max], 0⟩) ∧
    ((⟨true, .notStarted, [], [], [u64Max], 0⟩ : PsiThreadState Nat).epollSlots.length =
      (⟨true, .notStarted, [], [], [u64Max], 0⟩ : PsiThreadState Nat).ids.length + 1 ∧
    (([] : List (Nat × PsiFd)) = [] →
      (⟨true, .notStarted, [], [], [u64Max], 0⟩ : PsiThreadState Nat).ids = [] ∧
      epollWait
        (⟨true, .notStarted, [], [], [u64Max], 0⟩ : PsiThreadState Nat).ids.length
        [u64Max] = .error .EINVAL ∧
      epollLoopFirstStep
        (⟨true, .notStarted, [], [], [u64Max], 0⟩ : PsiThreadState Nat).ids
        true [u64Max] =
        .exitErr [Event.Failure (errnoToIo .EINVAL)] (errnoToIo .EINVAL))) :=
  ⟨rfl, empty_registry_wait_buffer osOk [] _ [u64Max] rfl⟩

theorem addAllFds_osOk {T : Type} (l : List (T × PsiFd)) :
    addAllFds osOk l = none := by
  induction l with
  | nil => rfl
  | cons p rest ih => simpa [addAllFds, osOk] using ih

theorem wrapAllFds_tokioOk {T : Type} (l : List (T × PsiFd)) :
    wrapAllFds tokioOk l = none := by
  induction l with
  | nil => rfl
  | cons p rest ih => simpa [wrapAllFds, tokioOk] using ih

theorem mem_insertAssoc {T : Type} [DecidableEq T]
    (l : List (T × PsiFd)) (k : T) (v : PsiFd) (p : T × PsiFd)
    (h : p ∈ insertAssoc l k v) : p = (k, v) ∨ p ∈ l := by
  induction l with
  | nil => simpa [insertAssoc] using h
  | cons q rest ih =>
    by_cases hk : q.1 = k
    · simp only [insertAssoc, if_pos hk] at h
      rcases List.mem_cons.mp h with h1 | h1
      · exact Or.inl h1
      · exact Or.inr (List.mem_cons_of_mem q h1)
    · simp only [insertAssoc, if_neg hk] at h
      rcases List.mem_cons.mp h with h1 | h1
      · exact Or.inr (h1 ▸ List.mem_cons_self q rest)
      · rcases ih h1 with h2 | h2
        · exact Or.inl h2
        · exact Or.inr (List.mem_cons_of_mem q h2)

/-- C1, evaluated at the failing input: a started `PsiThread` whose
background thread has exited and whose channel is drained. Its `recv`
blocks forever — the `Sender` inside `PsiThreadInner` is kept alive by
the `Arc` stored in the still-alive `PsiThread` value itself, so the
`mpsc` channel never reports closure and the closed-channel error branch
of `recv` is unreachable. The tokio engine in the analogous state (all
task-held senders gone, queue drained) does fail with the closed-channel
error as the claim states. -/
theorem recv_blocks_after_thread_exit :
    PsiThread.recv (⟨true, .exited, [], [0], [0, u64Max], 1⟩ : PsiThreadState Nat) =
      .blocked ∧
    PsiTokioReactor.recv (⟨[false], true, [], 0, 1⟩ : PsiTokioState Nat) =
      .err channelClosedErr :=
  ⟨rfl, rfl⟩

/-- C2 counterexample: a registry map holding a handle created by
`new_unchecked` (provenance flag unset) builds into either engine
successfully whenever the OS calls succeed — `Build` performs no
provenance check and reports no `ConfigurationError`. -/
theorem build_no_provenance_check_cex :
    (PsiFd.new_unchecked 5).from_builder = false ∧
    (PsiThread.new osOk [((0 : Nat), PsiFd.new_unchecked 5)]).isOk = true ∧
    (PsiTokioReactor.new tokioOk [((0 : Nat), PsiFd.new_unchecked 5)]).isOk = true :=
  ⟨rfl, rfl, rfl⟩

/-- C2 (amended): a handle whose provenance flag is unset is rejected
when it is registered — `add_fd` panics on it — so a registry reachable
through `add_fd` holds only builder-produced handles and no engine is
ever built over an unchecked one; the engine constructors themselves
consult only the raw fd and never fail on provenance. -/
theorem provenance_rejected_at_registration {T : Type} [DecidableEq T]
    (map : List (T × PsiFd)) (id : T) (fd : PsiFd)
    (h : fd.from_builder = false) :
    PsiMonitor.add_fd map id fd = .error panicMsgInvalidFd ∧
    (∀ (m2 m3 : List (T × PsiFd)) (i2 : T) (f2 : PsiFd),
      (∀ p ∈ m2, p.2.from_builder = true) →
      PsiMonitor.add_fd m2 i2 f2 = .ok m3 →
      ∀ p ∈ m3, p.2.from_builder = true) ∧
    (∀ (map2 : List (T × PsiFd)), (PsiThread.new osOk map2).isOk = true) ∧
    (∀ (map3 : List (T × PsiFd)), (PsiTokioReactor.new tokioOk map3).isOk = true) := by
  refine ⟨by simp [PsiMonitor.add_fd, h], ?_, ?_, ?_⟩
  · intro m2 m3 i2 f2 hall hadd p hp
    unfold PsiMonitor.add_fd at hadd
    by_cases hf2 : f2.from_builder
    · have hm3 : m3 = insertAssoc m2 i2 f2 := by
        rw [if_neg (by simp [hf2])] at hadd
        exact (Except.ok.inj hadd).symm
      rcases mem_insertAssoc m2 i2 f2 p (hm3 ▸ hp) with h1 | h1
      · rw [h1]; exact hf2
      · exact hall p h1
    · simp [hf2] at hadd
  · intro map2
    unfold PsiThread.new
    rw [addAllFds_osOk]
    rfl
  · intro map3
    unfold PsiTokioReactor.new
    rw [wrapAllFds_tokioOk]
    rfl

/-- Witness for the amended C2 at a concrete unchecked handle. -/
theorem provenance_rejected_at_registration_witness :
    (PsiFd.new_unchecked 9).from_builder = false ∧
    (PsiMonitor.add_fd ([] : List (Nat × PsiFd)) 0 (PsiFd.new_unchecked 9) =
        .error panicMsgInvalidFd ∧
      (∀ (m2 m3 : List (Nat × PsiFd)) (i2 : Nat) (f2 : PsiFd),
        (∀ p ∈ m2, p.2.from_builder = true) →
        PsiMonitor.add_fd m2 i2 f2 = .ok m3 →
        ∀ p ∈ m3, p.2.from_builder = true) ∧
      (∀ (map2 : List (Nat × PsiFd)), (PsiThread.new osOk map2).isOk = true) ∧
      (∀ (map3 : List (Nat × PsiFd)),
        (PsiTokioReactor.new tokioOk map3).isOk = true)) :=
  ⟨rfl, provenance_rejected_at_registration [] 0 (PsiFd.new_unchecked 9) rfl⟩

/-- C3 counterexample: calling `start` twice is not rejected on either
engine — both second calls return success. The thread engine has spawned
two background threads after the two calls; the tokio engine's second
call (on a one-fd reactor) spawns nothing and resets the started flag. -/
theorem start_twice_not_rejected_cex :
    Except.bind
      (PsiThread.start (⟨true, .notStarted, [], [0], [0, u64Max], 0⟩ :
        PsiThreadState Nat))
      PsiThread.start
      = .ok ⟨true, .running, [], [0], [0, u64Max], 2⟩ ∧
    Except.bind
      (PsiTokioReactor.start (⟨[true], false, [], 1, 0⟩ : PsiTokioState Nat))
      PsiTokioReactor.start
      = .ok ⟨[false], false, [], 1, 1⟩ :=
  ⟨rfl, rfl⟩

/-- C3 (amended): neither engine rejects a second `start`; it returns
success on both. The thread engine spawns one more background thread
(replacing the stored join handle); the tokio engine spawns no new task
but, for a non-empty registry, stores `None` as its abort handles, so the
engine reports not-started on every subsequent `recv` (and its running
tasks can no longer be aborted). -/
theorem second_start_behaviour {T : Type}
    (s s1 : PsiThreadState T) (k k1 k2 : PsiTokioState T)
    (hs : PsiThread.start s = .ok s1)
    (hk0 : k.innerSlots ≠ [])
    (hk1 : PsiTokioReactor.start k = .ok k1)
    (hk2 : PsiTokioReactor.start k1 = .ok k2) :
    PsiThread.start s1 =
      .ok { s1 with thread := .running, spawnCount := s.spawnCount + 2 } ∧
    k2.tasksSpawned = k1.tasksSpawned ∧
    k2.started = false ∧
    PsiTokioReactor.recv k2 = .err notStartedTokioErr := by
  have hs1 : s1 = { s with thread := .running, spawnCount := s.spawnCount + 1 } :=
    (Except.ok.inj hs).symm
  have hk1e : k1 = { k with innerSlots := k.innerSlots.map (fun _ => false),
                            started := k.innerSlots.all (fun b => b),
                            tasksSpawned := k.tasksSpawned + k.innerSlots.count true } :=
    (Except.ok.inj hk1).symm
  have hk2e : k2 = { k1 with innerSlots := k1.innerSlots.map (fun _ => false),
                             started := k1.innerSlots.all (fun b => b),
                             tasksSpawned := k1.tasksSpawned + k1.innerSlots.count true } :=
    (Except.ok.inj hk2).symm
  have hfalse : k1.innerSlots = k.innerSlots.map (fun _ => false) := by
    rw [hk1e]
  have hcount : k1.innerSlots.count true = 0 := by
    rw [hfalse, List.count_eq_zero]
    simp
  have hall : k1.innerSlots.all (fun b => b) = false := by
    rw [hfalse]
    cases hc : k.innerSlots with
    | nil => exact absurd hc hk0
    | cons b rest => simp
  refine ⟨?_, ?_, ?_, ?_⟩
  · rw [hs1]
    rfl
  · rw [hk2e, hcount]
    rfl
  · rw [hk2e]
    simpa using hall
  · have hst : k2.started = false := by
      rw [hk2e]
      simpa using hall
    unfold PsiTokioReactor.recv
    rw [hst]
    simp

/-- Witness for the amended C3 on concrete one-fd engines. -/
theorem second_start_behaviour_witness :
    (PsiThread.start (⟨true, .notStarted, [], [0], [0, u64Max], 0⟩ :
        PsiThreadState Nat) = .ok ⟨true, .running, [], [0], [0, u64Max], 1⟩ ∧
      (⟨[true], false, [], 1, 0⟩ : PsiTokioState Nat).innerSlots ≠ [] ∧
      PsiTokioReactor.start (⟨[true], false, [], 1, 0⟩ : PsiTokioState Nat) =
        .ok ⟨[false], true, [], 1, 1⟩ ∧
      PsiTokioReactor.start (⟨[false], true, [], 1, 1⟩ : PsiTokioState Nat) =
        .ok ⟨[false], false, [], 1, 1⟩) ∧
    (PsiThread.start (⟨true, .running, [], [0], [0, u64Max], 1⟩ : PsiThreadState Nat) =
      .ok ⟨true, .running, [], [0], [0, u64Max], 2⟩ ∧
    (⟨[false], false, [], 1, 1⟩ : PsiTokioState Nat).tasksSpawned =
      (⟨[false], true, [], 1, 1⟩ : PsiTokioState Nat).tasksSpawned ∧
    (⟨[false], false, [], 1, 1⟩ : PsiTokioState Nat).started = false ∧
    PsiTokioReactor.recv (⟨[false], false, [], 1, 1⟩ : PsiTokioState Nat) =
      .err notStartedTokioErr) :=
  ⟨⟨rfl, by decide, rfl, rfl⟩,
    second_start_behaviour
      ⟨true, .notStarted, [], [0], [0, u64Max], 0⟩
      ⟨true, .running, [], [0], [0, u64Max], 1⟩
      ⟨[true], false, [], 1, 0⟩ ⟨[false], true, [], 1, 1⟩ ⟨[false], false, [], 1, 1⟩
      rfl (by decide) rfl rfl⟩

/-- C6 counterexample: a task whose readiness fails once and then
succeeds sends `Event::Failure` followed by `Event::Ready` for the same
id, and does not stop — so receipt of a `Failure` does not mean the
watched id has stopped producing events. -/
theorem task_failure_not_terminal_cex :
    taskRun (0 : Nat) true [some (errnoToIo (.otherNo 5)), none] =
      ([Event.Failure (errnoToIo (.otherNo 5)), Event.Ready 0], false) :=
  rfl

/-- C6 (amended): a task's readiness failure is reported per-occurrence
as `Event::Failure` without stopping sibling tasks or the failing task
itself: while the receiver is alive, the task maps each readiness outcome
to one sent event (`Ready` on success, `Failure` on failure) and keeps
looping, so it may still produce events for its id after a failure; and
each task's output depends only on its own readiness trace. -/
theorem task_failure_per_occurrence {T : Type} (id : T)
    (trace : List (Option IoErr))
    (pre post : List (T × List (Option IoErr))) (t : T × List (Option IoErr)) :
    taskRun id true trace =
      (trace.map (fun r =>
        match r with
        | none => Event.Ready id
        | some e => Event.Failure e), false) ∧
    reactorRun true (pre ++ t :: post) =
      reactorRun true pre ++ (taskRun t.1 true t.2).1 :: reactorRun true post := by
  constructor
  · induction trace with
    | nil => rfl
    | cons r rest ih =>
      cases r with
      | none => simp [taskRun, ih]
      | some e => simp [taskRun, ih]
  · simp [reactorRun]

end Presutaoru
